import Mathlib

/-!
Shallow embedding of the orchestration core of `viral-marketing-reporter-v2`
(`src/viral_marketing_reporter`): the `SearchJob`/`SearchTask` aggregate
(`domain/model.py`), the domain events (`domain/events.py`), the in-memory
message bus (`infrastructure/message_bus.py`), the SQLAlchemy unit-of-work
commit (`infrastructure/uow.py`) together with the repository seen-set
(`domain/repositories.py`), the SQLite persistence round trip
(`infrastructure/persistence/repositories.py`, `orm.py`), and the create-job
handler's DTO-to-task translation (`application/handlers.py`).

`uuid.UUID` values and `datetime` timestamps are modelled as `Nat`;
`pathlib.Path` values are modelled by their string form `str(path)` (which in
Python is never the empty string). Python methods that mutate `self` are
modelled as state-passing functions; a method that raises before mutating
returns the unchanged state together with the error message.
-/

-- ### Value objects and enums (domain/model.py) ###

inductive Platform where
  | naverBlog
  | instagram
deriving DecidableEq, Repr

structure Keyword where
  text : String
deriving DecidableEq, Repr

structure Post where
  url : String
deriving DecidableEq, Repr

/-- `Screenshot.file_path` models `str(path)` of the Python `Path`. -/
structure Screenshot where
  file_path : String
deriving DecidableEq, Repr

structure SearchResult where
  found_posts : List Post
  screenshot : Option Screenshot
deriving DecidableEq, Repr

inductive TaskStatus where
  | pending
  | found
  | notFound
  | error
deriving DecidableEq, Repr

/-- The `.value` strings of the `TaskStatus` enum, carried by `TaskCompleted`. -/
def TaskStatus.value : TaskStatus → String
  | .pending => "대기"
  | .found => "포함"
  | .notFound => "미포함"
  | .error => "에러"

inductive JobStatus where
  | pending
  | running
  | completed
  | failed
deriving DecidableEq, Repr

-- ### Domain events (domain/events.py) ###

inductive Event where
  | searchJobCreated (job_id : Nat) (created_at : Nat)
  | searchJobStarted (job_id : Nat)
  | taskCompleted (task_id : Nat) (job_id : Nat) (status : String)
  | jobCompleted (job_id : Nat)
deriving DecidableEq, Repr

-- ### Entities (domain/model.py) ###

structure SearchTask where
  index : Nat
  keyword : Keyword
  blog_posts_to_find : List Post
  platform : Platform
  screenshot_all_posts : Bool := false
  status : TaskStatus := TaskStatus.pending
  result : Option SearchResult := none
  error_message : Option String := none
  task_id : Nat
deriving DecidableEq, Repr

/-- `SearchTask.update_result`: status becomes Found when `found_posts` is
non-empty, NotFound otherwise, and the result is stored. -/
def SearchTask.update_result (t : SearchTask) (result : SearchResult) : SearchTask :=
  { t with
    status := if result.found_posts ≠ [] then TaskStatus.found else TaskStatus.notFound,
    result := some result }

/-- `SearchTask.mark_as_error`: status becomes Error and the message is stored. -/
def SearchTask.mark_as_error (t : SearchTask) (message : String) : SearchTask :=
  { t with status := TaskStatus.error, error_message := some message }

structure SearchJob where
  tasks : List SearchTask
  status : JobStatus := JobStatus.pending
  created_at : Nat
  job_id : Nat
  events : List Event := []
deriving DecidableEq, Repr

/-- `SearchJob.create`: constructs the job (status defaults to Pending, events
to `[]`) and appends `SearchJobCreated(job_id, created_at)`. -/
def SearchJob.create (job_id : Nat) (created_at : Nat) (tasks : List SearchTask) :
    SearchJob :=
  { tasks := tasks, status := JobStatus.pending, created_at := created_at,
    job_id := job_id, events := [Event.searchJobCreated job_id created_at] }

/-- `SearchJob.pull_events`: returns a copy of the event list and clears it. -/
def SearchJob.pull_events (j : SearchJob) : List Event × SearchJob :=
  (j.events, { j with events := [] })

/-- `SearchJob.start`: raises `ValueError` when status is not Pending (state
unchanged, since the raise precedes any mutation); otherwise sets status to
Running and appends `SearchJobStarted`. The second component is the raised
error message, when any. -/
def SearchJob.startRun (j : SearchJob) : SearchJob × Option String :=
  if j.status ≠ JobStatus.pending then
    (j, some "이미 시작되었거나 완료된 작업입니다.")
  else
    ({ j with status := JobStatus.running,
              events := j.events ++ [Event.searchJobStarted j.job_id] }, none)

/-- `SearchJob._find_task_by_id`: first task whose id matches, if any. -/
def SearchJob.find_task_by_id (j : SearchJob) (task_id : Nat) : Option SearchTask :=
  j.tasks.find? (fun t => t.task_id == task_id)

/-- Replaces the first task with the given id by its image under `f`, as the
in-place mutation of the found task does in Python. -/
def updateFirstTask (f : SearchTask → SearchTask) (task_id : Nat) :
    List SearchTask → List SearchTask
  | [] => []
  | t :: ts =>
    if t.task_id == task_id then f t :: ts
    else t :: updateFirstTask f task_id ts

/-- `SearchJob.update_task_result`: silently ignores an unknown id; otherwise
updates the found task and appends `TaskCompleted` with the task's new status. -/
def SearchJob.update_task_result (j : SearchJob) (task_id : Nat)
    (result : SearchResult) : SearchJob :=
  match j.find_task_by_id task_id with
  | none => j
  | some task =>
    let task2 := task.update_result result
    { j with
      tasks := updateFirstTask (fun t => t.update_result result) task_id j.tasks,
      events := j.events ++
        [Event.taskCompleted task2.task_id j.job_id task2.status.value] }

/-- `SearchJob.update_task_error`: silently ignores an unknown id; otherwise
marks the found task as Error and appends `TaskCompleted` with the new status. -/
def SearchJob.update_task_error (j : SearchJob) (task_id : Nat)
    (error_message : String) : SearchJob :=
  match j.find_task_by_id task_id with
  | none => j
  | some task =>
    let task2 := task.mark_as_error error_message
    { j with
      tasks := updateFirstTask (fun t => t.mark_as_error error_message) task_id j.tasks,
      events := j.events ++
        [Event.taskCompleted task2.task_id j.job_id task2.status.value] }

/-- `SearchJob.check_if_completed`: when status is not Completed and no task is
Pending, sets status to Completed and appends `JobCompleted`; otherwise no-op. -/
def SearchJob.check_if_completed (j : SearchJob) : SearchJob :=
  if j.status ≠ JobStatus.completed ∧ ∀ t ∈ j.tasks, t.status ≠ TaskStatus.pending then
    { j with status := JobStatus.completed,
             events := j.events ++ [Event.jobCompleted j.job_id] }
  else j

-- ### Sample values used by witnesses ###

def taskW : SearchTask :=
  { index := 1, keyword := Keyword.mk "k", blog_posts_to_find := [Post.mk "u1"],
    platform := Platform.naverBlog, status := TaskStatus.found, task_id := 1 }

def jobW : SearchJob :=
  { tasks := [taskW], status := JobStatus.running, created_at := 0, job_id := 5,
    events := [] }

-- ### C1 ###

lemma check_if_completed_fires (j : SearchJob) (hc : j.status ≠ JobStatus.completed)
    (hall : ∀ t ∈ j.tasks, t.status ≠ TaskStatus.pending) :
    j.check_if_completed =
      { j with status := JobStatus.completed,
               events := j.events ++ [Event.jobCompleted j.job_id] } := by
  unfold SearchJob.check_if_completed
  rw [if_pos ⟨hc, hall⟩]

lemma check_if_completed_noop_completed (j : SearchJob)
    (hc : j.status = JobStatus.completed) : j.check_if_completed = j := by
  unfold SearchJob.check_if_completed
  rw [if_neg]
  intro h
  exact h.1 hc

lemma check_if_completed_noop_pending (j : SearchJob)
    (hall : ¬ ∀ t ∈ j.tasks, t.status ≠ TaskStatus.pending) :
    j.check_if_completed = j := by
  unfold SearchJob.check_if_completed
  rw [if_neg]
  intro h
  exact hall h.2

/-- C1: `check_if_completed` makes the status Completed iff every task has left
Pending (or it already was Completed); it is a no-op on an already Completed
job; on the first completion it appends `JobCompleted` once; and a repeated
call appends nothing more (the function is idempotent). -/
theorem checkIfCompleted_completion_spec (j : SearchJob) :
    ((j.check_if_completed).status = JobStatus.completed ↔
      (j.status = JobStatus.completed ∨ ∀ t ∈ j.tasks, t.status ≠ TaskStatus.pending))
    ∧ (j.status = JobStatus.completed → j.check_if_completed = j)
    ∧ (j.status ≠ JobStatus.completed →
        (∀ t ∈ j.tasks, t.status ≠ TaskStatus.pending) →
        (j.check_if_completed).events = j.events ++ [Event.jobCompleted j.job_id])
    ∧ (j.check_if_completed).check_if_completed = j.check_if_completed := by
  by_cases hc : j.status = JobStatus.completed
  · rw [check_if_completed_noop_completed j hc]
    exact ⟨by simp [hc], fun _ => rfl, fun h _ => absurd hc h,
      check_if_completed_noop_completed j hc⟩
  · by_cases hall : ∀ t ∈ j.tasks, t.status ≠ TaskStatus.pending
    · rw [check_if_completed_fires j hc hall]
      refine ⟨by simpa using Or.inr hall, fun h => absurd h hc, fun _ _ => rfl, ?_⟩
      exact check_if_completed_noop_completed _ rfl
    · rw [check_if_completed_noop_pending j hall]
      exact ⟨by simp [hc, hall], fun h => absurd h hc, fun _ h => absurd h hall,
        check_if_completed_noop_pending j hall⟩

/-- Witness for C1 at a concrete running job whose single task is Found. -/
theorem checkIfCompleted_completion_spec_witness :
    (jobW.check_if_completed).events = jobW.events ++ [Event.jobCompleted jobW.job_id] :=
  (checkIfCompleted_completion_spec jobW).2.2.1 (by decide) (by decide)

-- ### C4 ###

/-- C4: `start()` raises iff the status is not Pending, and then leaves the
state unchanged; from Pending it sets Running and appends `SearchJobStarted`;
in particular a second `start()` after a successful one raises and leaves the
started state unchanged. -/
theorem start_transition_spec (j : SearchJob) :
    ((j.startRun).2.isSome ↔ j.status ≠ JobStatus.pending)
    ∧ (j.status ≠ JobStatus.pending →
        j.startRun = (j, some "이미 시작되었거나 완료된 작업입니다."))
    ∧ (j.status = JobStatus.pending →
        j.startRun = ({ j with status := JobStatus.running,
                               events := j.events ++ [Event.searchJobStarted j.job_id] },
                      none))
    ∧ (j.status = JobStatus.pending →
        ((j.startRun).1.startRun).2.isSome ∧ ((j.startRun).1.startRun).1 = (j.startRun).1) := by
  unfold SearchJob.startRun
  by_cases hp : j.status = JobStatus.pending
  · simp [hp]
  · simp [hp]

/-- Witness for C4 at a concrete pending job. -/
theorem start_transition_spec_witness :
    (SearchJob.create 2 0 []).startRun =
      ({ SearchJob.create 2 0 [] with
          status := JobStatus.running,
          events := (SearchJob.create 2 0 []).events ++ [Event.searchJobStarted 2] },
       none) :=
  (start_transition_spec (SearchJob.create 2 0 [])).2.2.1 (by decide)

-- ### C7 ###

/-- C7: `pull_events()` is a drain: it returns exactly the pending events
(unaffected by the clearing), leaves the event list empty, and an immediate
second call returns the empty list and changes nothing. -/
theorem pull_events_drain_spec (j : SearchJob) :
    (j.pull_events).1 = j.events
    ∧ ((j.pull_events).2).events = []
    ∧ ((j.pull_events).2).pull_events = ([], (j.pull_events).2) := by
  simp [SearchJob.pull_events]

-- ### C5 / C10 helper lemmas ###

lemma find_updateFirstTask (f : SearchTask → SearchTask) (task_id : Nat)
    (hf : ∀ u, (f u).task_id = u.task_id) (ts : List SearchTask) :
    (updateFirstTask f task_id ts).find? (fun t => t.task_id == task_id) =
      (ts.find? (fun t => t.task_id == task_id)).map f := by
  induction ts with
  | nil => rfl
  | cons t ts ih =>
    by_cases h : t.task_id = task_id
    · simp [updateFirstTask, h, hf]
    · simp [updateFirstTask, h, ih]

def resW : SearchResult := { found_posts := [Post.mk "u1"], screenshot := none }

lemma update_task_result_none (j : SearchJob) (tid : Nat) (res : SearchResult)
    (h : j.find_task_by_id tid = none) : j.update_task_result tid res = j := by
  unfold SearchJob.update_task_result
  rw [h]

lemma update_task_error_none (j : SearchJob) (tid : Nat) (msg : String)
    (h : j.find_task_by_id tid = none) : j.update_task_error tid msg = j := by
  unfold SearchJob.update_task_error
  rw [h]

lemma update_task_result_some (j : SearchJob) (tid : Nat) (res : SearchResult)
    (t : SearchTask) (h : j.find_task_by_id tid = some t) :
    j.update_task_result tid res =
      { j with
        tasks := updateFirstTask (fun u => u.update_result res) tid j.tasks,
        events := j.events ++
          [Event.taskCompleted (t.update_result res).task_id j.job_id
            (t.update_result res).status.value] } := by
  unfold SearchJob.update_task_result
  rw [h]

lemma update_task_error_some (j : SearchJob) (tid : Nat) (msg : String)
    (t : SearchTask) (h : j.find_task_by_id tid = some t) :
    j.update_task_error tid msg =
      { j with
        tasks := updateFirstTask (fun u => u.mark_as_error msg) tid j.tasks,
        events := j.events ++
          [Event.taskCompleted (t.mark_as_error msg).task_id j.job_id
            (t.mark_as_error msg).status.value] } := by
  unfold SearchJob.update_task_error
  rw [h]

-- ### C5 ###

/-- C5: an unknown task id makes both `update_task_result` and
`update_task_error` silent no-ops; a known id sets the found task's status to
Found iff the result's matched-post list is non-empty (NotFound otherwise),
stores the result, and appends one `TaskCompleted` carrying the new status;
`update_task_error` sets Error, stores the message, and appends one
`TaskCompleted` with the Error status. -/
theorem update_task_spec (j : SearchJob) (tid : Nat) (res : SearchResult)
    (msg : String) :
    (j.find_task_by_id tid = none →
        j.update_task_result tid res = j ∧ j.update_task_error tid msg = j)
    ∧ (∀ t, j.find_task_by_id tid = some t →
        ((t.update_result res).status =
            (if res.found_posts ≠ [] then TaskStatus.found else TaskStatus.notFound))
        ∧ (t.update_result res).result = some res
        ∧ (j.update_task_result tid res).tasks =
            updateFirstTask (fun u => u.update_result res) tid j.tasks
        ∧ (j.update_task_result tid res).events =
            j.events ++
              [Event.taskCompleted t.task_id j.job_id (t.update_result res).status.value]
        ∧ (t.mark_as_error msg).status = TaskStatus.error
        ∧ (t.mark_as_error msg).error_message = some msg
        ∧ (j.update_task_error tid msg).tasks =
            updateFirstTask (fun u => u.mark_as_error msg) tid j.tasks
        ∧ (j.update_task_error tid msg).events =
            j.events ++
              [Event.taskCompleted t.task_id j.job_id TaskStatus.error.value]) := by
  constructor
  · intro h
    exact ⟨update_task_result_none j tid res h, update_task_error_none j tid msg h⟩
  · intro t h
    refine ⟨rfl, rfl, ?_, ?_, rfl, rfl, ?_, ?_⟩
    · rw [update_task_result_some j tid res t h]
    · rw [update_task_result_some j tid res t h]
      simp [SearchTask.update_result]
    · rw [update_task_error_some j tid msg t h]
    · rw [update_task_error_some j tid msg t h]
      simp [SearchTask.mark_as_error, TaskStatus.value]

/-- Witness for C5: updating the known task of a concrete job appends one
`TaskCompleted` with the Found status string. -/
theorem update_task_spec_witness :
    (jobW.update_task_result 1 resW).events =
      jobW.events ++ [Event.taskCompleted 1 5 "포함"] := by
  have h := ((update_task_spec jobW 1 resW "boom").2 taskW (by rfl)).2.2.2.1
  simpa [jobW, taskW, resW, SearchTask.update_result, TaskStatus.value] using h

-- ### C10 ###

/-- C10: recording twice for the same known task id is unguarded, whatever the
task's current status: the second call overwrites the task's status, result or
error message and appends a second `TaskCompleted`, so one task can emit more
than one `TaskCompleted` under duplicate delivery. -/
theorem duplicate_delivery_overwrite (j : SearchJob) (tid : Nat)
    (res : SearchResult) (msg : String) (t : SearchTask)
    (h : j.find_task_by_id tid = some t) :
    ((j.update_task_result tid res).find_task_by_id tid = some (t.update_result res))
    ∧ ((j.update_task_result tid res).update_task_error tid msg).events =
        j.events ++
          [Event.taskCompleted t.task_id j.job_id (t.update_result res).status.value,
           Event.taskCompleted t.task_id j.job_id TaskStatus.error.value]
    ∧ ((j.update_task_result tid res).update_task_error tid msg).find_task_by_id tid =
        some ((t.update_result res).mark_as_error msg)
    ∧ ((t.update_result res).mark_as_error msg).status = TaskStatus.error
    ∧ ((t.update_result res).mark_as_error msg).result = some res
    ∧ ((t.update_result res).mark_as_error msg).error_message = some msg := by
  have hF : j.tasks.find? (fun u => u.task_id == tid) = some t := h
  have hr := update_task_result_some j tid res t h
  have h1 : (j.update_task_result tid res).find_task_by_id tid =
      some (t.update_result res) := by
    rw [hr]
    show (updateFirstTask (fun u => u.update_result res) tid j.tasks).find?
        (fun u => u.task_id == tid) = some (t.update_result res)
    rw [find_updateFirstTask (fun u => u.update_result res) tid (fun u => rfl) j.tasks,
      hF]
    rfl
  have he := update_task_error_some (j.update_task_result tid res) tid msg
    (t.update_result res) h1
  refine ⟨h1, ?_, ?_, rfl, rfl, rfl⟩
  · rw [he, hr]
    simp [SearchTask.update_result, SearchTask.mark_as_error, TaskStatus.value]
  · rw [he]
    show (updateFirstTask (fun u => u.mark_as_error msg) tid
        (j.update_task_result tid res).tasks).find? (fun u => u.task_id == tid) =
      some ((t.update_result res).mark_as_error msg)
    rw [hr]
    show (updateFirstTask (fun u => u.mark_as_error msg) tid
        (updateFirstTask (fun u => u.update_result res) tid j.tasks)).find?
        (fun u => u.task_id == tid) = some ((t.update_result res).mark_as_error msg)
    rw [find_updateFirstTask (fun u => u.mark_as_error msg) tid (fun u => rfl),
      find_updateFirstTask (fun u => u.update_result res) tid (fun u => rfl), hF]
    rfl

/-- Witness for C10: a second record on the already-Found task of a concrete
job appends a second `TaskCompleted` and overwrites the status to Error. -/
theorem duplicate_delivery_overwrite_witness :
    ((jobW.update_task_result 1 resW).update_task_error 1 "boom").events =
      jobW.events ++
        [Event.taskCompleted 1 5 "포함", Event.taskCompleted 1 5 "에러"] := by
  have h := (duplicate_delivery_overwrite jobW 1 resW "boom" taskW (by rfl)).2.1
  simpa [jobW, taskW, resW, SearchTask.update_result, TaskStatus.value] using h

-- ### C3: the aggregate's operations as a state machine ###

/-- The mutating aggregate operations named by the spec (create is the start
state; `start` models `start()`, with a raise leaving the state unchanged). -/
inductive Op where
  | start
  | updateTaskResult (task_id : Nat) (result : SearchResult)
  | updateTaskError (task_id : Nat) (message : String)
  | checkIfCompleted

def applyOp : Op → SearchJob → SearchJob
  | Op.start, j => (j.startRun).1
  | Op.updateTaskResult tid res, j => j.update_task_result tid res
  | Op.updateTaskError tid msg, j => j.update_task_error tid msg
  | Op.checkIfCompleted, j => j.check_if_completed

def applyOps (ops : List Op) (j : SearchJob) : SearchJob :=
  ops.foldl (fun j op => applyOp op j) j

/-- A job obtained from `SearchJob.create` by a sequence of operations. -/
def reachedJob (job_id created_at : Nat) (tasks : List SearchTask)
    (ops : List Op) : SearchJob :=
  applyOps ops (SearchJob.create job_id created_at tasks)

def countJobCompleted (es : List Event) : Nat :=
  es.countP (fun e => match e with | Event.jobCompleted _ => true | _ => false)

/-- Position of a status along the Pending → Running → Completed chain. -/
def statusRank : JobStatus → Nat
  | JobStatus.pending => 0
  | JobStatus.running => 1
  | JobStatus.completed => 2
  | JobStatus.failed => 0

def JobInv (j : SearchJob) : Prop :=
  j.status ≠ JobStatus.failed
  ∧ countJobCompleted j.events = (if j.status = JobStatus.completed then 1 else 0)
  ∧ (j.status = JobStatus.completed → ∀ t ∈ j.tasks, t.status ≠ TaskStatus.pending)

lemma countJobCompleted_append (es1 es2 : List Event) :
    countJobCompleted (es1 ++ es2) = countJobCompleted es1 + countJobCompleted es2 :=
  List.countP_append _ _ _

lemma startRun_pending (j : SearchJob) (hp : j.status = JobStatus.pending) :
    j.startRun = ({ j with status := JobStatus.running,
                           events := j.events ++ [Event.searchJobStarted j.job_id] },
                  none) := by
  unfold SearchJob.startRun
  rw [if_neg (not_not_intro hp)]

lemma startRun_not_pending (j : SearchJob) (hp : j.status ≠ JobStatus.pending) :
    j.startRun = (j, some "이미 시작되었거나 완료된 작업입니다.") := by
  unfold SearchJob.startRun
  rw [if_pos hp]

lemma update_task_result_status (j : SearchJob) (tid : Nat) (res : SearchResult) :
    (j.update_task_result tid res).status = j.status := by
  cases h : j.find_task_by_id tid with
  | none => rw [update_task_result_none j tid res h]
  | some t => rw [update_task_result_some j tid res t h]

lemma update_task_error_status (j : SearchJob) (tid : Nat) (msg : String) :
    (j.update_task_error tid msg).status = j.status := by
  cases h : j.find_task_by_id tid with
  | none => rw [update_task_error_none j tid msg h]
  | some t => rw [update_task_error_some j tid msg t h]

lemma update_result_status_ne_pending (u : SearchTask) (res : SearchResult) :
    (u.update_result res).status ≠ TaskStatus.pending := by
  unfold SearchTask.update_result
  dsimp
  split <;> simp

lemma mark_as_error_status_ne_pending (u : SearchTask) (msg : String) :
    (u.mark_as_error msg).status ≠ TaskStatus.pending := by
  simp [SearchTask.mark_as_error]

lemma updateFirstTask_nonpending (f : SearchTask → SearchTask) (tid : Nat)
    (hf : ∀ u, (f u).status ≠ TaskStatus.pending) :
    ∀ ts : List SearchTask, (∀ t ∈ ts, t.status ≠ TaskStatus.pending) →
      ∀ t ∈ updateFirstTask f tid ts, t.status ≠ TaskStatus.pending := by
  intro ts
  induction ts with
  | nil =>
    intro _ t ht
    simp [updateFirstTask] at ht
  | cons a as ih =>
    intro hts t ht
    by_cases ha : a.task_id = tid
    · simp [updateFirstTask, ha] at ht
      rcases ht with h1 | h1
      · rw [h1]; exact hf a
      · exact hts t (List.mem_cons_of_mem _ h1)
    · simp [updateFirstTask, ha] at ht
      rcases ht with h1 | h1
      · rw [h1]; exact hts a (List.mem_cons_self _ _)
      · exact ih (fun u hu => hts u (List.mem_cons_of_mem _ hu)) t h1

lemma applyOp_inv (op : Op) (j : SearchJob) (hj : JobInv j) : JobInv (applyOp op j) := by
  obtain ⟨hnf, hcount, hcomp⟩ := hj
  cases op with
  | start =>
    by_cases hp : j.status = JobStatus.pending
    · simp only [applyOp]
      rw [startRun_pending j hp]
      refine ⟨by simp, ?_, ?_⟩
      · dsimp
        rw [countJobCompleted_append, hcount, hp]
        rfl
      · intro hc
        exact absurd hc (by simp)
    · simp only [applyOp]
      rw [startRun_not_pending j hp]
      exact ⟨hnf, hcount, hcomp⟩
  | updateTaskResult tid res =>
    simp only [applyOp]
    cases h : j.find_task_by_id tid with
    | none =>
      rw [update_task_result_none j tid res h]
      exact ⟨hnf, hcount, hcomp⟩
    | some t =>
      rw [update_task_result_some j tid res t h]
      refine ⟨hnf, ?_, ?_⟩
      · dsimp
        rw [countJobCompleted_append, hcount]
        rfl
      · intro hc
        exact updateFirstTask_nonpending _ tid
          (fun u => update_result_status_ne_pending u res) j.tasks (hcomp hc)
  | updateTaskError tid msg =>
    simp only [applyOp]
    cases h : j.find_task_by_id tid with
    | none =>
      rw [update_task_error_none j tid msg h]
      exact ⟨hnf, hcount, hcomp⟩
    | some t =>
      rw [update_task_error_some j tid msg t h]
      refine ⟨hnf, ?_, ?_⟩
      · dsimp
        rw [countJobCompleted_append, hcount]
        rfl
      · intro hc
        exact updateFirstTask_nonpending _ tid
          (fun u => mark_as_error_status_ne_pending u msg) j.tasks (hcomp hc)
  | checkIfCompleted =>
    simp only [applyOp]
    by_cases hc : j.status = JobStatus.completed
    · rw [check_if_completed_noop_completed j hc]
      exact ⟨hnf, hcount, hcomp⟩
    · by_cases hall : ∀ t ∈ j.tasks, t.status ≠ TaskStatus.pending
      · rw [check_if_completed_fires j hc hall]
        refine ⟨by simp, ?_, fun _ => hall⟩
        dsimp
        rw [countJobCompleted_append, hcount, if_neg hc]
        rfl
      · rw [check_if_completed_noop_pending j hall]
        exact ⟨hnf, hcount, hcomp⟩

lemma statusRank_le_two (s : JobStatus) : statusRank s ≤ 2 := by
  cases s <;> simp [statusRank]

lemma applyOp_rank_mono (op : Op) (j : SearchJob) :
    statusRank j.status ≤ statusRank (applyOp op j).status := by
  cases op with
  | start =>
    by_cases hp : j.status = JobStatus.pending
    · simp only [applyOp]
      rw [startRun_pending j hp, hp]
      simp [statusRank]
    · simp only [applyOp]
      rw [startRun_not_pending j hp]
  | updateTaskResult tid res =>
    simp only [applyOp]
    rw [update_task_result_status]
  | updateTaskError tid msg =>
    simp only [applyOp]
    rw [update_task_error_status]
  | checkIfCompleted =>
    simp only [applyOp]
    by_cases hc : j.status = JobStatus.completed
    · rw [check_if_completed_noop_completed j hc]
    · by_cases hall : ∀ t ∈ j.tasks, t.status ≠ TaskStatus.pending
      · rw [check_if_completed_fires j hc hall]
        exact statusRank_le_two _
      · rw [check_if_completed_noop_pending j hall]

lemma applyOp_completed_stays (op : Op) (j : SearchJob)
    (hc : j.status = JobStatus.completed) :
    (applyOp op j).status = JobStatus.completed := by
  cases op with
  | start =>
    have hp : j.status ≠ JobStatus.pending := by rw [hc]; simp
    simp only [applyOp]
    rw [startRun_not_pending j hp]
    exact hc
  | updateTaskResult tid res =>
    simp only [applyOp]
    rw [update_task_result_status]
    exact hc
  | updateTaskError tid msg =>
    simp only [applyOp]
    rw [update_task_error_status]
    exact hc
  | checkIfCompleted =>
    simp only [applyOp]
    rw [check_if_completed_noop_completed j hc]
    exact hc

lemma applyOps_inv : ∀ (ops : List Op) (j : SearchJob), JobInv j → JobInv (applyOps ops j) := by
  intro ops
  induction ops with
  | nil => intro j hj; exact hj
  | cons op ops ih => intro j hj; exact ih (applyOp op j) (applyOp_inv op j hj)

lemma create_inv (job_id created_at : Nat) (tasks : List SearchTask) :
    JobInv (SearchJob.create job_id created_at tasks) := by
  refine ⟨by simp [SearchJob.create], by rfl, ?_⟩
  intro h
  exact absurd h (by simp [SearchJob.create])

/-- C3: from creation, any sequence of aggregate operations keeps the status
off Failed, moves it only forward along Pending → Running → Completed, keeps a
Completed job Completed, appends `JobCompleted` exactly once (exactly when the
status is Completed), and reaches Completed only with every task off Pending. -/
theorem job_status_machine_invariant (job_id created_at : Nat)
    (tasks : List SearchTask) (ops : List Op) :
    (reachedJob job_id created_at tasks ops).status ≠ JobStatus.failed
    ∧ (∀ op, statusRank (reachedJob job_id created_at tasks ops).status ≤
        statusRank (applyOp op (reachedJob job_id created_at tasks ops)).status)
    ∧ (∀ op, (reachedJob job_id created_at tasks ops).status = JobStatus.completed →
        (applyOp op (reachedJob job_id created_at tasks ops)).status = JobStatus.completed)
    ∧ countJobCompleted (reachedJob job_id created_at tasks ops).events =
        (if (reachedJob job_id created_at tasks ops).status = JobStatus.completed then 1 else 0)
    ∧ ((reachedJob job_id created_at tasks ops).status = JobStatus.completed →
        ∀ t ∈ (reachedJob job_id created_at tasks ops).tasks,
          t.status ≠ TaskStatus.pending) := by
  have hinv := applyOps_inv ops _ (create_inv job_id created_at tasks)
  exact ⟨hinv.1, fun op => applyOp_rank_mono op _,
    fun op hc => applyOp_completed_stays op _ hc, hinv.2.1, hinv.2.2⟩

def taskP : SearchTask :=
  { index := 1, keyword := Keyword.mk "k", blog_posts_to_find := [Post.mk "u1"],
    platform := Platform.naverBlog, task_id := 1 }

def opsW : List Op :=
  [Op.start, Op.updateTaskResult 1 resW, Op.checkIfCompleted, Op.checkIfCompleted]

/-- Witness for C3: a concrete run (start, one task result, two completion
checks) never shows Failed and holds exactly one `JobCompleted` event. -/
theorem job_status_machine_invariant_witness :
    (reachedJob 9 0 [taskP] opsW).status ≠ JobStatus.failed
    ∧ countJobCompleted (reachedJob 9 0 [taskP] opsW).events = 1 := by
  have h := job_status_machine_invariant 9 0 [taskP] opsW
  refine ⟨h.1, ?_⟩
  rw [h.2.2.2.1]
  rfl

-- ### Message bus (infrastructure/message_bus.py) ###

/-- Python exceptions as the bus observes them: `KeyError` (raised by a failed
dict lookup — and equally by a handler), `ValueError`, and any other
exception carried as text. -/
inductive PyErr where
  | keyError
  | valueError (msg : String)
  | other (msg : String)
deriving DecidableEq, Repr

/-- Commands and events are keyed by their Python class; the class name is the
type key. -/
inductive Message where
  | command (ctype : String) (payload : Nat)
  | event (etype : String) (payload : Nat)
deriving DecidableEq, Repr

/-- `await handler.handle(message)`: runs and may raise. -/
def Handler : Type := Message → Except PyErr Unit

structure InMemoryMessageBus where
  command_handlers : List (String × Handler)
  event_handlers : List (String × List Handler)

def lookupCommandHandler (bus : InMemoryMessageBus) (ctype : String) :
    Option Handler :=
  (bus.command_handlers.find? (fun p => p.1 == ctype)).map (fun p => p.2)

/-- `register_command`: raises `ValueError` when that exact command type
already has a handler; otherwise records the handler. -/
def register_command (bus : InMemoryMessageBus) (ctype : String) (h : Handler) :
    Except PyErr InMemoryMessageBus :=
  if (lookupCommandHandler bus ctype).isSome then
    Except.error (PyErr.valueError ("Command " ++ ctype ++ " already has a handler."))
  else
    Except.ok { bus with command_handlers := bus.command_handlers ++ [(ctype, h)] }

/-- `self._event_handlers[type(message)]` on a `defaultdict(list)`. -/
def eventHandlersFor (bus : InMemoryMessageBus) (etype : String) : List Handler :=
  ((bus.event_handlers.find? (fun p => p.1 == etype)).map (fun p => p.2)).getD []

def runHandlers : List Handler → Message → Except PyErr Unit
  | [], _ => Except.ok ()
  | h :: hs, m =>
    match h m with
    | Except.ok _ => runHandlers hs m
    | Except.error e => Except.error e

/-- `InMemoryMessageBus.handle`: an event goes to every subscriber in order,
the first error propagating. For a command, the `try` block spans both the
dict lookup and the handler call, and `except KeyError` turns a `KeyError`
raised by either of them into the no-handler `ValueError`. -/
def InMemoryMessageBus.handle (bus : InMemoryMessageBus) (m : Message) :
    Except PyErr Unit :=
  match m with
  | Message.event etype _ => runHandlers (eventHandlersFor bus etype) m
  | Message.command ctype _ =>
    let body : Except PyErr Unit :=
      match lookupCommandHandler bus ctype with
      | none => Except.error PyErr.keyError
      | some h => h m
    match body with
    | Except.error PyErr.keyError =>
        Except.error (PyErr.valueError ("No handler found for command " ++ ctype))
    | r => r

-- ### C6 ###

def keyErrHandler : Handler := fun _ => Except.error PyErr.keyError

def busCex : InMemoryMessageBus :=
  { command_handlers := [("CreateSearchCommand", keyErrHandler)],
    event_handlers := [] }

/-- Counterexample to C6: a registered handler that raises `KeyError` does not
have its own error propagated — dispatch reports the no-handler `ValueError`
instead, because the `try` block also wraps the handler call. -/
theorem dispatch_keyerror_masking_counterexample :
    lookupCommandHandler busCex "CreateSearchCommand" = some keyErrHandler
    ∧ keyErrHandler (Message.command "CreateSearchCommand" 0) =
        Except.error PyErr.keyError
    ∧ busCex.handle (Message.command "CreateSearchCommand" 0) =
        Except.error
          (PyErr.valueError "No handler found for command CreateSearchCommand")
    ∧ busCex.handle (Message.command "CreateSearchCommand" 0) ≠
        Except.error PyErr.keyError := by
  refine ⟨rfl, rfl, rfl, ?_⟩
  intro h
  injection h with h2
  exact PyErr.noConfusion h2

/-- C6 amended: registering fails exactly on a duplicate command type;
dispatching an unregistered command fails with the no-handler `ValueError`;
dispatching a registered command runs exactly that handler and propagates its
outcome unchanged — unless the handler's own error is `KeyError`, which
dispatch masks as the no-handler `ValueError`. -/
theorem bus_contract_amended (bus : InMemoryMessageBus) (ctype : String)
    (payload : Nat) (h : Handler) :
    ((lookupCommandHandler bus ctype).isSome →
        register_command bus ctype h =
          Except.error
            (PyErr.valueError ("Command " ++ ctype ++ " already has a handler.")))
    ∧ (lookupCommandHandler bus ctype = none →
        register_command bus ctype h =
          Except.ok
            { bus with command_handlers := bus.command_handlers ++ [(ctype, h)] })
    ∧ (lookupCommandHandler bus ctype = none →
        bus.handle (Message.command ctype payload) =
          Except.error (PyErr.valueError ("No handler found for command " ++ ctype)))
    ∧ (lookupCommandHandler bus ctype = some h →
        bus.handle (Message.command ctype payload) =
          (match h (Message.command ctype payload) with
           | Except.error PyErr.keyError =>
               Except.error
                 (PyErr.valueError ("No handler found for command " ++ ctype))
           | r => r)) := by
  refine ⟨?_, ?_, ?_, ?_⟩
  · intro hs
    unfold register_command
    rw [if_pos hs]
  · intro hn
    unfold register_command
    rw [if_neg (by rw [hn]; simp)]
  · intro hn
    show (let body : Except PyErr Unit :=
        match lookupCommandHandler bus ctype with
        | none => Except.error PyErr.keyError
        | some h2 => h2 (Message.command ctype payload)
      match body with
      | Except.error PyErr.keyError =>
          Except.error (PyErr.valueError ("No handler found for command " ++ ctype))
      | r => r) =
      Except.error (PyErr.valueError ("No handler found for command " ++ ctype))
    rw [hn]
  · intro hs
    show (let body : Except PyErr Unit :=
        match lookupCommandHandler bus ctype with
        | none => Except.error PyErr.keyError
        | some h2 => h2 (Message.command ctype payload)
      match body with
      | Except.error PyErr.keyError =>
          Except.error (PyErr.valueError ("No handler found for command " ++ ctype))
      | r => r) =
      (match h (Message.command ctype payload) with
       | Except.error PyErr.keyError =>
           Except.error (PyErr.valueError ("No handler found for command " ++ ctype))
       | r => r)
    rw [hs]

def boomHandler : Handler := fun _ => Except.error (PyErr.other "boom")

def busW : InMemoryMessageBus :=
  { command_handlers := [("CreateSearchCommand", boomHandler)],
    event_handlers := [] }

/-- Witness for C6: a registered handler's non-KeyError error is propagated
unchanged. -/
theorem bus_contract_amended_witness :
    busW.handle (Message.command "CreateSearchCommand" 0) =
      Except.error (PyErr.other "boom") := by
  have h := (bus_contract_amended busW "CreateSearchCommand" 0 boomHandler).2.2.2 rfl
  simpa using h

-- ### Unit of Work (infrastructure/uow.py, domain/repositories.py) ###

/-- SQLAlchemy session state as far as `commit()` consults it: `new` holds
instances added this scope and not yet flushed (pending), `dirty` holds
persistent instances whose mapped attributes were modified. An aggregate that
was only `add`ed is in `new`, never in `dirty`. `session.dirty` is modelled as
a list in its iteration order; the `isinstance(obj, SearchJob)` filter of
`commit()` is built in by typing both sets as `SearchJob` lists (modified
`SearchTask` rows, which the filter drops, are not modelled). -/
structure SaSession where
  new : List SearchJob
  dirty : List SearchJob
deriving DecidableEq, Repr

/-- A unit-of-work scope: the session plus the repository's `seen` set
(`SearchJobRepository.seen`, fed by `add` and by successful `get`), in the
order aggregates were first seen. -/
structure UowScope where
  session : SaSession
  seen : List SearchJob
deriving DecidableEq, Repr

def UowScope.init : UowScope := { session := { new := [], dirty := [] }, seen := [] }

/-- `repository.add(job)` inside a SQLAlchemy scope: the aggregate becomes
pending in the session (`session.new`) and joins the repository's seen set. -/
def UowScope.repositoryAdd (sc : UowScope) (j : SearchJob) : UowScope :=
  { session := { new := sc.session.new ++ [j], dirty := sc.session.dirty },
    seen := sc.seen ++ [j] }

/-- The externally observable actions of `commit()`: the durable store commit
and each event dispatched through the bus, in order. -/
inductive UowAction where
  | storeCommit
  | publish (e : Event)
deriving DecidableEq, Repr

def clearEvents (j : SearchJob) : SearchJob := { j with events := [] }

/-- `SqlAlchemyUnitOfWork.commit`: collects the `SearchJob`s of
`session.dirty`, drains each via `pull_events()` accumulating `all_events`,
calls `session.commit()`, and only then dispatches each accumulated event. -/
def SqlAlchemyUnitOfWork.commit (sc : UowScope) : List UowAction × UowScope :=
  let dirty_aggregates := sc.session.dirty
  let all_events := dirty_aggregates.flatMap (fun a => (a.pull_events).1)
  (UowAction.storeCommit :: all_events.map UowAction.publish,
   { session := { new := sc.session.new,
                  dirty := sc.session.dirty.map clearEvents },
     seen := sc.seen })

/-- The publication set in the words of the spec: drain every aggregate the
repository has seen during the scope, in seen order. -/
def specSeenDrainEvents (sc : UowScope) : List Event :=
  sc.seen.flatMap (fun a => (a.pull_events).1)

-- ### C2 ###

def jobC2 : SearchJob := SearchJob.create 7 0 []

def scopeC2 : UowScope := UowScope.init.repositoryAdd jobC2

/-- Counterexample to C2: in a scope whose only activity is `repository.add`
of a freshly created job, the job is in the seen set and carries a pending
`SearchJobCreated` event, yet `commit()` — draining `session.dirty`, where an
added-but-unflushed aggregate never is — publishes nothing. -/
theorem commit_drains_seen_counterexample :
    scopeC2.seen = [jobC2]
    ∧ jobC2.events = [Event.searchJobCreated 7 0]
    ∧ specSeenDrainEvents scopeC2 = [Event.searchJobCreated 7 0]
    ∧ (SqlAlchemyUnitOfWork.commit scopeC2).1 = [UowAction.storeCommit]
    ∧ (SqlAlchemyUnitOfWork.commit scopeC2).1 ≠
        UowAction.storeCommit ::
          (specSeenDrainEvents scopeC2).map UowAction.publish := by
  refine ⟨rfl, rfl, rfl, rfl, by decide⟩

/-- C2 amended: `commit()` publishes exactly the pending events drained from
the aggregates in the session's dirty set — in that set's iteration order and,
within one aggregate, in append order — every publication coming after the
store commit; the drained aggregates are left with empty event lists, while
`session.new` and the repository's seen set are not consulted and not drained. -/
theorem commit_publishes_dirty_events (sc : UowScope) :
    (SqlAlchemyUnitOfWork.commit sc).1 =
      UowAction.storeCommit ::
        (sc.session.dirty.flatMap (fun a => (a.pull_events).1)).map UowAction.publish
    ∧ ((SqlAlchemyUnitOfWork.commit sc).2).session.dirty =
        sc.session.dirty.map clearEvents
    ∧ (∀ a ∈ ((SqlAlchemyUnitOfWork.commit sc).2).session.dirty, a.events = [])
    ∧ ((SqlAlchemyUnitOfWork.commit sc).2).session.new = sc.session.new
    ∧ ((SqlAlchemyUnitOfWork.commit sc).2).seen = sc.seen := by
  refine ⟨rfl, rfl, ?_, rfl, rfl⟩
  intro a ha
  simp only [SqlAlchemyUnitOfWork.commit, List.mem_map] at ha
  obtain ⟨b, _, hb⟩ := ha
  rw [← hb]
  rfl

/-- Witness for C2's amended theorem at a concrete dirty scope. -/
theorem commit_publishes_dirty_events_witness :
    (SqlAlchemyUnitOfWork.commit
        { session := { new := [], dirty := [jobW] }, seen := [jobW] }).1 =
      UowAction.storeCommit :: (jobW.events.map UowAction.publish) := by
  have h := (commit_publishes_dirty_events
    { session := { new := [], dirty := [jobW] }, seen := [jobW] }).1
  simpa using h

-- ### Persistence round trip (infrastructure/persistence) ###

/-- A row of `search_tasks` (orm.py): value objects serialized into columns.
The JSON arrays of URL strings are modelled as the string lists themselves
(JSON round-trips a list of strings exactly). `index`,
`screenshot_all_posts` and `error_message` have no column. -/
structure TaskRow where
  task_id : Nat
  job_id : Nat
  platform : Platform
  status : TaskStatus
  keyword : String
  blog_posts_to_find : List String
  result_found_posts : Option (List String)
  result_screenshot_path : Option String
deriving DecidableEq, Repr

/-- A row of `search_jobs` (orm.py). -/
structure JobRow where
  job_id : Nat
  status : JobStatus
  created_at : Nat
deriving DecidableEq, Repr

/-- `_prepare_for_persistence` on one task: keyword text, the URL list, the
matched-URL list when a result exists, and `str(screenshot.file_path)` when a
result with a screenshot exists (NULL otherwise, in either arm). -/
def prepare_for_persistence (job_id : Nat) (t : SearchTask) : TaskRow :=
  { task_id := t.task_id, job_id := job_id, platform := t.platform,
    status := t.status, keyword := t.keyword.text,
    blog_posts_to_find := t.blog_posts_to_find.map (fun p => p.url),
    result_found_posts := t.result.map (fun r => r.found_posts.map (fun p => p.url)),
    result_screenshot_path :=
      t.result.bind (fun r => r.screenshot.map (fun s => s.file_path)) }

/-- `_reconstitute_from_persistence` on one row: rebuild the value objects;
`if screenshot_path_str:` is Python truthiness, so NULL and the empty string
both yield no screenshot. Unmapped attributes get the dataclass defaults. -/
def reconstitute_from_persistence (row : TaskRow) : SearchTask :=
  { index := 0, keyword := Keyword.mk row.keyword,
    blog_posts_to_find := row.blog_posts_to_find.map Post.mk,
    platform := row.platform, screenshot_all_posts := false,
    status := row.status,
    result :=
      match row.result_found_posts with
      | none => none
      | some urls =>
        some { found_posts := urls.map Post.mk,
               screenshot :=
                 match row.result_screenshot_path with
                 | none => none
                 | some s => if s ≠ "" then some (Screenshot.mk s) else none },
    error_message := none, task_id := row.task_id }

/-- `SqliteSearchJobRepository.save`: one job row plus one task row per task. -/
def repositorySave (j : SearchJob) : JobRow × List TaskRow :=
  ({ job_id := j.job_id, status := j.status, created_at := j.created_at },
   j.tasks.map (prepare_for_persistence j.job_id))

/-- `SqliteSearchJobRepository.get` over the stored rows: rebuild the
aggregate; the transient event list is not persisted. -/
def repositoryGet (rows : JobRow × List TaskRow) : SearchJob :=
  { tasks := rows.2.map reconstitute_from_persistence,
    status := rows.1.status, created_at := rows.1.created_at,
    job_id := rows.1.job_id, events := [] }

/-- The per-task fields C8 claims are preserved: keyword text, target URL
list, matched-URL list when a result exists, screenshot path when present. -/
def taskView (t : SearchTask) :
    String × List String × Option (List String) × Option String :=
  (t.keyword.text, t.blog_posts_to_find.map (fun p => p.url),
   t.result.map (fun r => r.found_posts.map (fun p => p.url)),
   t.result.bind (fun r => r.screenshot.map (fun s => s.file_path)))

lemma taskView_roundtrip (jid : Nat) (t : SearchTask)
    (hpath : ∀ r, t.result = some r → ∀ s, r.screenshot = some s →
      s.file_path ≠ "") :
    taskView (reconstitute_from_persistence (prepare_for_persistence jid t)) =
      taskView t := by
  cases hres : t.result with
  | none =>
    simp [taskView, prepare_for_persistence, reconstitute_from_persistence, hres,
      List.map_map, Function.comp]
  | some r =>
    cases hs : r.screenshot with
    | none =>
      simp [taskView, prepare_for_persistence, reconstitute_from_persistence, hres,
        hs, List.map_map, Function.comp]
    | some s =>
      have hne := hpath r hres s hs
      simp [taskView, prepare_for_persistence, reconstitute_from_persistence, hres,
        hs, hne, List.map_map, Function.comp]

-- ### C8 ###

/-- C8: saving a job with the repository and loading it back preserves the
task count and, per task, the keyword text, the target URL list, the
matched-URL list when a result is present, and the screenshot path when one is
present (absent result and absent screenshot stay absent). The hypothesis
records that a screenshot path is a Python `str(Path)`, which is never empty. -/
theorem persistence_roundtrip (j : SearchJob)
    (hpath : ∀ t ∈ j.tasks, ∀ r, t.result = some r →
      ∀ s, r.screenshot = some s → s.file_path ≠ "") :
    (repositoryGet (repositorySave j)).tasks.length = j.tasks.length
    ∧ (repositoryGet (repositorySave j)).tasks.map taskView =
        j.tasks.map taskView := by
  have hmap : (repositoryGet (repositorySave j)).tasks.map taskView =
      j.tasks.map taskView := by
    show ((j.tasks.map (prepare_for_persistence j.job_id)).map
        reconstitute_from_persistence).map taskView = j.tasks.map taskView
    rw [List.map_map, List.map_map]
    refine List.map_congr_left ?_
    intro t ht
    exact taskView_roundtrip j.job_id t (hpath t ht)
  constructor
  · have h := congrArg List.length hmap
    simpa using h
  · exact hmap

def taskR1 : SearchTask :=
  { index := 1, keyword := Keyword.mk "kw1",
    blog_posts_to_find := [Post.mk "u1", Post.mk "u2"],
    platform := Platform.naverBlog, status := TaskStatus.found,
    result := some { found_posts := [Post.mk "u1"],
                     screenshot := some (Screenshot.mk "shot.png") },
    task_id := 11 }

def taskR2 : SearchTask :=
  { index := 2, keyword := Keyword.mk "kw2", blog_posts_to_find := [Post.mk "u3"],
    platform := Platform.instagram, task_id := 12 }

def jobR : SearchJob :=
  { tasks := [taskR1, taskR2], status := JobStatus.completed, created_at := 3,
    job_id := 10, events := [] }

/-- Witness for C8 at a concrete job with one resulted-and-screenshotted task
and one untouched task. -/
theorem persistence_roundtrip_witness :
    (repositoryGet (repositorySave jobR)).tasks.map taskView =
      jobR.tasks.map taskView := by
  refine (persistence_roundtrip jobR ?_).2
  intro t ht r hr s hs
  simp only [jobR, List.mem_cons, List.not_mem_nil, or_false] at ht
  rcases ht with rfl | rfl
  · injection hr with h1
    subst h1
    injection hs with h2
    subst h2
    decide
  · exact absurd hr (by simp [taskR2])

-- ### Create-job handler DTO translation (application/handlers.py) ###

/-- The task DTO as the create handler consumes it (`commands.py` declares
keyword, urls, platform; `handlers.py` additionally reads `dto.index` and
`dto.screenshot_all_posts`). -/
structure TaskDTO where
  index : Nat
  keyword : String
  urls : List String
  platform : Platform
  screenshot_all_posts : Bool
deriving DecidableEq, Repr

/-- The per-DTO `SearchTask(...)` construction in
`CreateSearchCommandHandler.handle`; `task_id` stands for the `uuid4`
default generated at construction. -/
def taskFromDTO (task_id : Nat) (dto : TaskDTO) : SearchTask :=
  { index := dto.index, keyword := Keyword.mk dto.keyword,
    blog_posts_to_find := dto.urls.map (fun url => Post.mk url),
    platform := dto.platform, screenshot_all_posts := dto.screenshot_all_posts,
    status := TaskStatus.pending, result := none, error_message := none,
    task_id := task_id }

-- ### C9 ###

def dtoC9 : TaskDTO :=
  { index := 1, keyword := "kw", urls := ["u", "u"],
    platform := Platform.naverBlog, screenshot_all_posts := false }

/-- Counterexample to C9: a DTO whose URL list repeats a URL yields a task
whose target-post collection holds that URL twice — nothing de-duplicates. -/
theorem dto_urls_duplicates_counterexample :
    (taskFromDTO 0 dtoC9).blog_posts_to_find = [Post.mk "u", Post.mk "u"]
    ∧ ¬ ((taskFromDTO 0 dtoC9).blog_posts_to_find.map (fun p => p.url)).Nodup := by
  refine ⟨rfl, ?_⟩
  decide

/-- C9 amended: the handler turns a DTO's URL list into the task's target
posts verbatim — one `Post` per input URL, same order and multiplicity, with
duplicates kept. -/
theorem taskFromDTO_urls_verbatim (task_id : Nat) (dto : TaskDTO) :
    (taskFromDTO task_id dto).blog_posts_to_find =
      dto.urls.map (fun url => Post.mk url)
    ∧ ((taskFromDTO task_id dto).blog_posts_to_find.map (fun p => p.url)) =
        dto.urls := by
  refine ⟨rfl, ?_⟩
  rw [show (taskFromDTO task_id dto).blog_posts_to_find =
      dto.urls.map (fun url => Post.mk url) from rfl, List.map_map]
  show dto.urls.map id = dto.urls
  exact List.map_id dto.urls
